import Mathlib

/-!
Verification of the felix voice-assistant server: a shallow embedding of the
per-connection conversational pipeline (session state machine, conversation
store, VAD gate, tool executor, LLM adapter stream normalization, and the
orchestrator's audio ingress / turn runner), with theorems settling the
frozen specification claims.

Conventions of the embedding:
* Python ints/counters become `Nat`; wall-clock / monotonic timestamps and
  float durations or probabilities become `ℚ` (the code only compares and
  adds them, never relies on IEEE rounding).
* Python strings become `String`; character-level operations (slicing,
  case-insensitive counting) are implemented over `List Char`.
* Async functions are modelled as pure functions over explicit state; the
  adapters (STT, LLM provider, TTS, tool handlers) are inputs, since the
  source treats them as replaceable.
* Fallible Python code is modelled with `Option`/`Except`; a `try/except`
  boundary becomes a total function.
-/

namespace Felix

/-! ## Character-level helpers (models of Python str operations) -/

/-- Lower-case a character list (model of Python `str.lower()` for the ASCII
phrases the code works with). -/
def lowerChars (s : List Char) : List Char := s.map Char.toLower

/-- Auxiliary scanner for `countOcc`: walks the text one character at a time;
`skip` characters are still to be consumed by a previous match, so matches are
non-overlapping, as in Python `str.count`. -/
def countOccAux (pat : List Char) : List Char → Nat → Nat
  | [], _ => 0
  | c :: rest, 0 =>
      if pat.isPrefixOf (c :: rest) then 1 + countOccAux pat rest (pat.length - 1)
      else countOccAux pat rest 0
  | _ :: rest, k + 1 => countOccAux pat rest k

/-- Number of non-overlapping occurrences of `pat` in `s` (model of Python
`str.count`). The empty pattern is never used by the code; it returns 0 here. -/
def countOcc (pat s : List Char) : Nat :=
  if pat = [] then 0 else countOccAux pat s 0

/-- First index of `pat` in `s`, or `none` (model of Python `str.find`, whose
-1 result is handled at each call site). -/
def findSub (pat : List Char) : List Char → Option Nat
  | [] => if pat = [] then some 0 else none
  | c :: rest =>
      if pat.isPrefixOf (c :: rest) then some 0
      else (findSub pat rest).map (· + 1)

/-- Whether `pat` occurs in `s` (model of Python `pat in s`). -/
def containsSub (pat s : List Char) : Bool := (findSub pat s).isSome

/-- Strip leading and trailing whitespace (model of Python `str.strip()`). -/
def stripChars (s : List Char) : List Char :=
  ((s.dropWhile Char.isWhitespace).reverse.dropWhile Char.isWhitespace).reverse

/-- Model of Python `str.strip()` on `String`s. -/
def pyStrip (s : String) : String := ⟨stripChars s.data⟩

/-- Last `n` characters of a string (model of Python `s[-n:]`). -/
def lastChars (n : Nat) (s : List Char) : List Char := s.drop (s.length - n)

/-! ## Conversation store — `server/llm/conversation.py` -/

/-- One message of the conversation (`Message` dataclass). The `timestamp`
field of the source is dropped: nothing in the verified code reads it. -/
structure Message where
  role : String
  content : String
  name : Option String := none
  toolCallId : Option String := none
  toolCalls : Option (List String) := none
deriving DecidableEq

/-- Conversation history (`ConversationHistory`). `messages` models the
`deque(maxlen=max_messages)`: appending past capacity drops the oldest. -/
structure ConversationHistory where
  systemPrompt : String
  maxMessages : Nat
  maxTokensEstimate : Nat
  messages : List Message
deriving DecidableEq

/-- Constructor defaults of `ConversationHistory.__init__` (the default
system prompt's text is irrelevant to every claim; only its length enters
`estimate_tokens`, so it is kept abstract as the supplied string). -/
def ConversationHistory.mkDefault (systemPrompt : String) : ConversationHistory :=
  { systemPrompt := systemPrompt, maxMessages := 50, maxTokensEstimate := 4000, messages := [] }

/-- Append honouring the deque's `maxlen`. -/
def ConversationHistory.pushMessage (h : ConversationHistory) (m : Message) : ConversationHistory :=
  let l := h.messages ++ [m]
  { h with messages := if h.maxMessages < l.length then l.drop (l.length - h.maxMessages) else l }

/-- Model of `add_user_message`. -/
def ConversationHistory.addUserMessage (h : ConversationHistory) (content : String) : ConversationHistory :=
  h.pushMessage { role := "user", content := content }

/-- Model of `add_assistant_message`. -/
def ConversationHistory.addAssistantMessage (h : ConversationHistory) (content : String)
    (toolCalls : Option (List String)) : ConversationHistory :=
  h.pushMessage { role := "assistant", content := content, toolCalls := toolCalls }

/-- Model of `add_tool_result`. -/
def ConversationHistory.addToolResult (h : ConversationHistory) (toolCallId : String)
    (toolName : String) (result : String) : ConversationHistory :=
  h.pushMessage { role := "tool", content := result, name := some toolName,
                  toolCallId := some toolCallId }

/-- Model of `estimate_tokens`: `(len(system_prompt) + Σ len(m.content)) // 4`. -/
def ConversationHistory.estimateTokens (h : ConversationHistory) : Nat :=
  (h.systemPrompt.length + (h.messages.map (fun m => m.content.length)).sum) / 4

/-- Fuelled form of the `while` loop of `trim_to_token_limit`; each iteration
removes exactly one message, so `h.messages.length` steps of fuel reproduce
the loop exactly. -/
def ConversationHistory.trimAux : Nat → ConversationHistory → ConversationHistory
  | 0, h => h
  | fuel + 1, h =>
      if h.maxTokensEstimate < h.estimateTokens ∧ 2 < h.messages.length then
        ConversationHistory.trimAux fuel { h with messages := h.messages.tail }
      else h

/-- Model of `trim_to_token_limit`: pop oldest while the estimate exceeds the
budget and more than two messages remain. -/
def ConversationHistory.trimToTokenLimit (h : ConversationHistory) : ConversationHistory :=
  ConversationHistory.trimAux h.messages.length h

/-! ## Session state machine — `server/session.py` -/

/-- The five session states. -/
inductive SessionState
  | idle
  | listening
  | processing
  | speaking
  | interrupted
deriving DecidableEq

/-- Session (`Session` dataclass). The `asyncio.Lock` is not part of the
data model here: the ingress handler is modelled as a single sequential
run, and the lock's `locked()` test appears explicitly where the source
reads it. -/
structure Session where
  state : SessionState
  audioBuffer : List Nat
  conversationHistory : ConversationHistory
  stopRequested : Bool
  lastActivity : ℚ
  speakingStarted : ℚ
deriving DecidableEq

/-- Model of `Session.set_state`: note the source resets `_stop_requested`
on every call, whatever the new state is. -/
def Session.setState (s : Session) (newState : SessionState) (now : ℚ) : Session :=
  let s1 : Session :=
    { s with state := newState, stopRequested := false, lastActivity := now }
  if newState = SessionState.speaking then { s1 with speakingStarted := now } else s1

/-- Model of `Session.check_speaking_timeout` (`SPEAKING_TIMEOUT = 30.0`). -/
def Session.checkSpeakingTimeout (s : Session) (now : ℚ) : Bool :=
  if s.state = SessionState.speaking ∧ 30 < now - s.speakingStarted then true else false

/-- Model of `Session.interrupt`: sets the stop flag and, if speaking, moves
to `interrupted` by direct field assignment (not through `set_state`). -/
def Session.interrupt (s : Session) : Session :=
  let s1 : Session := { s with stopRequested := true }
  if s1.state = SessionState.speaking then { s1 with state := SessionState.interrupted } else s1

/-- Model of `Session.should_stop`. -/
def Session.shouldStop (s : Session) : Bool := s.stopRequested

/-- Model of `Session.reset_stop_flag`. -/
def Session.resetStopFlag (s : Session) : Session := { s with stopRequested := false }

/-- A concrete session used by counterexamples: currently speaking, with the
stop flag raised by a barge-in. -/
def sampleSpeakingSession : Session :=
  { state := SessionState.speaking
    audioBuffer := []
    conversationHistory := ConversationHistory.mkDefault "You are a helpful voice assistant."
    stopRequested := true
    lastActivity := 0
    speakingStarted := 0 }

/-! ## Claim C3 — cancel-token monotonicity within a turn -/

/-- Claim C3, as stated: once set during a turn, the stop flag is cleared
only on entering Listening or starting a new Processing; no other state
transition (entering Speaking, Interrupted or Idle) unsets it. This is false:
`set_state` unconditionally clears `_stop_requested`, so transitioning the
interrupted sample session to Idle (equally: to Speaking) clears the flag. -/
theorem C3_counterexample :
    ((sampleSpeakingSession.interrupt).setState SessionState.idle 1).stopRequested = false ∧
    ((sampleSpeakingSession.interrupt).setState SessionState.speaking 1).stopRequested = false ∧
    (sampleSpeakingSession.interrupt).stopRequested = true := by
  decide

/-- Claim C3 as amended: every `set_state` call — to any target state, not
just Listening or Processing — clears the stop flag (as does
`reset_stop_flag`); `interrupt()` sets it, and its direct Speaking→Interrupted
assignment does not clear it. -/
theorem C3_stop_flag_behaviour (s : Session) (st : SessionState) (now : ℚ) :
    (s.setState st now).stopRequested = false ∧
    (s.resetStopFlag).stopRequested = false ∧
    (s.interrupt).stopRequested = true := by
  refine ⟨?_, rfl, ?_⟩
  · unfold Session.setState
    by_cases h : st = SessionState.speaking <;> simp [h]
  · unfold Session.interrupt
    by_cases h : s.state = SessionState.speaking <;> simp [h]

/-! ## Claim C7 — token-budget trim -/

/-- Helper invariant: provided the fuel covers all but two messages, the
trim loop ends under budget or with at most two messages left. -/
theorem trimAux_post (fuel : Nat) :
    ∀ h : ConversationHistory, h.messages.length ≤ fuel + 2 →
      ((ConversationHistory.trimAux fuel h).estimateTokens ≤
          (ConversationHistory.trimAux fuel h).maxTokensEstimate ∨
        (ConversationHistory.trimAux fuel h).messages.length ≤ 2) := by
  induction fuel with
  | zero =>
      intro h hlen
      unfold ConversationHistory.trimAux
      exact Or.inr hlen
  | succ n ih =>
      intro h hlen
      unfold ConversationHistory.trimAux
      by_cases hc : h.maxTokensEstimate < h.estimateTokens ∧ 2 < h.messages.length
      · rw [if_pos hc]
        apply ih
        have : h.messages.tail.length = h.messages.length - 1 := List.length_tail _
        simp only [this]
        omega
      · rw [if_neg hc]
        rcases Nat.lt_or_ge h.maxTokensEstimate h.estimateTokens with hlt | hge
        · right
          rcases Nat.lt_or_ge 2 h.messages.length with h2 | h2
          · exact absurd ⟨hlt, h2⟩ hc
          · exact h2
        · exact Or.inl hge

/-- Helper: the trim loop only removes from the front, so the surviving
messages are a suffix of the originals, and the other fields are unchanged. -/
theorem trimAux_suffix (fuel : Nat) :
    ∀ h : ConversationHistory,
      (ConversationHistory.trimAux fuel h).messages.IsSuffix h.messages ∧
      (ConversationHistory.trimAux fuel h).systemPrompt = h.systemPrompt ∧
      (ConversationHistory.trimAux fuel h).maxTokensEstimate = h.maxTokensEstimate := by
  induction fuel with
  | zero =>
      intro h
      unfold ConversationHistory.trimAux
      exact ⟨List.suffix_refl _, rfl, rfl⟩
  | succ n ih =>
      intro h
      unfold ConversationHistory.trimAux
      by_cases hc : h.maxTokensEstimate < h.estimateTokens ∧ 2 < h.messages.length
      · rw [if_pos hc]
        refine ⟨?_, (ih _).2.1, (ih _).2.2⟩
        exact List.IsSuffix.trans (ih _).1 (List.tail_suffix _)
      · rw [if_neg hc]
        exact ⟨List.suffix_refl _, rfl, rfl⟩

/-- A conversation over budget that trimming cannot fix: the system prompt
alone estimates to 2 tokens against a configured budget of 1, and with no
messages to drop the loop exits immediately, still over budget. -/
def overBudgetHistory : ConversationHistory :=
  { systemPrompt := "abcdefgh", maxMessages := 50, maxTokensEstimate := 1, messages := [] }

/-- Claim C7, as stated, is false: after `trim_to_token_limit()` the estimate
can still exceed the budget, because the loop also stops as soon as at most
two messages remain (and the system prompt always counts). -/
theorem C7_counterexample :
    (overBudgetHistory.trimToTokenLimit).maxTokensEstimate <
      (overBudgetHistory.trimToTokenLimit).estimateTokens := by
  decide

/-- Claim C7 as amended: after `trim_to_token_limit()` either the estimated
token count is within the budget or at most two messages remain; only the
oldest messages are removed (the retained messages are a suffix of the
original list, in order), and the system prompt is kept. -/
theorem C7_trim_to_token_limit (h : ConversationHistory) :
    ((h.trimToTokenLimit).estimateTokens ≤ (h.trimToTokenLimit).maxTokensEstimate ∨
      (h.trimToTokenLimit).messages.length ≤ 2) ∧
    (h.trimToTokenLimit).messages.IsSuffix h.messages ∧
    (h.trimToTokenLimit).systemPrompt = h.systemPrompt := by
  unfold ConversationHistory.trimToTokenLimit
  refine ⟨trimAux_post _ h (by omega), (trimAux_suffix _ h).1, (trimAux_suffix _ h).2.1⟩

/-! ## VAD gate — `server/audio/vad.py` (`SileroVAD`)

The classifier itself (`self.model`) is an external pretrained network; its
per-window speech probability is therefore an input here. `process_chunk`
buffers bytes and runs the state machine once per complete 512-sample
window, so the embedding works at window granularity: a PCM stream is the
list of probabilities the classifier assigns to its successive complete
windows. The early `return` on `speech_ended` leaves the remaining buffered
samples for the next call, so across repeated calls every window is
processed once, in order, whatever the chunking — which is what
`processWindows` folds over. -/

/-- Mutable state of `SileroVAD` (threshold and the two sample minima are
fixed at construction; at 16 kHz the defaults are 2400 and 4800 samples). -/
structure SileroVAD where
  threshold : ℚ
  minSpeechSamples : Nat
  minSilenceSamples : Nat
  isSpeaking : Bool
  speechSamples : Nat
  silenceSamples : Nat
  triggered : Bool
deriving DecidableEq

/-- A freshly constructed (equivalently, freshly `reset()`) `SileroVAD` with
the 16 kHz defaults: `min_speech_ms=150` → 2400 samples, `min_silence_ms=300`
→ 4800 samples. -/
def SileroVAD.init (threshold : ℚ) : SileroVAD :=
  { threshold := threshold, minSpeechSamples := 2400, minSilenceSamples := 4800,
    isSpeaking := false, speechSamples := 0, silenceSamples := 0, triggered := false }

/-- Model of `SileroVAD.reset`. -/
def SileroVAD.reset (v : SileroVAD) : SileroVAD :=
  { v with isSpeaking := false, speechSamples := 0, silenceSamples := 0, triggered := false }

/-- One iteration of the window loop inside `process_chunk`, for a complete
512-sample window whose classifier probability is `prob`. Returns the new
state and the `speech_ended` flag of this window. -/
def SileroVAD.processWindow (v : SileroVAD) (prob : ℚ) : SileroVAD × Bool :=
  if v.threshold ≤ prob then
    let v1 : SileroVAD := { v with speechSamples := v.speechSamples + 512, silenceSamples := 0 }
    if v1.minSpeechSamples ≤ v1.speechSamples then
      ({ v1 with triggered := true, isSpeaking := true }, false)
    else (v1, false)
  else
    let v1 : SileroVAD := { v with silenceSamples := v.silenceSamples + 512 }
    if v1.isSpeaking ∧ v1.minSilenceSamples ≤ v1.silenceSamples then
      ({ v1 with isSpeaking := false, triggered := false, speechSamples := 0 }, true)
    else (v1, false)

/-- Process a stream of complete windows, recording whether any window
reported `speech_ended`. -/
def SileroVAD.processWindows (v : SileroVAD) : List ℚ → SileroVAD × Bool
  | [] => (v, false)
  | p :: ps =>
      let (v1, ended) := v.processWindow p
      let (v2, endedRest) := v1.processWindows ps
      (v2, ended || endedRest)

/-- A window stream in which every probability is at most the threshold
(none strictly exceeds it), yet speech is detected and later ends: five
windows at exactly the threshold accumulate 2560 ≥ 2400 speech samples
(the code compares with `>=`), then ten silent windows accumulate
5120 ≥ 4800 silence samples. The threshold is 1 rather than the default 0.5
only so that the kernel can evaluate the rationals; the comparison logic is
identical at any threshold. -/
def boundaryWindowStream : List ℚ :=
  List.replicate 5 1 ++ List.replicate 10 0

/-- Claim C9, as stated, is false: with no window's probability exceeding
(strictly) the threshold, `speech_ended` can still be reported, because the
code classifies a window at exactly the threshold as speech. -/
theorem C9_counterexample :
    (∀ p ∈ boundaryWindowStream, p ≤ (1 : ℚ)) ∧
    ((SileroVAD.init 1).processWindows boundaryWindowStream).2 = true := by
  constructor
  · decide
  · decide

/-- Helper: a window strictly below the threshold keeps a non-speaking VAD
non-speaking and reports no end of speech. -/
theorem processWindow_silent (v : SileroVAD) (p : ℚ)
    (hp : p < v.threshold) (hs : v.isSpeaking = false) :
    (v.processWindow p).1.isSpeaking = false ∧ (v.processWindow p).2 = false := by
  unfold SileroVAD.processWindow
  rw [if_neg (not_le.mpr hp)]
  have : ¬ (({ v with silenceSamples := v.silenceSamples + 512 } : SileroVAD).isSpeaking ∧
      ({ v with silenceSamples := v.silenceSamples + 512 } : SileroVAD).minSilenceSamples ≤
        ({ v with silenceSamples := v.silenceSamples + 512 } : SileroVAD).silenceSamples) := by
    intro hcon
    rw [show ({ v with silenceSamples := v.silenceSamples + 512 } : SileroVAD).isSpeaking =
        v.isSpeaking from rfl, hs] at hcon
    exact Bool.false_ne_true hcon.1
  rw [if_neg this]
  exact ⟨hs, rfl⟩

/-- Helper: thresholds are unchanged by `processWindow`. -/
theorem processWindow_threshold (v : SileroVAD) (p : ℚ) :
    (v.processWindow p).1.threshold = v.threshold := by
  unfold SileroVAD.processWindow
  by_cases h1 : v.threshold ≤ p
  · rw [if_pos h1]
    by_cases h2 : (({ v with speechSamples := v.speechSamples + 512, silenceSamples := 0 } :
        SileroVAD)).minSpeechSamples ≤
        (({ v with speechSamples := v.speechSamples + 512, silenceSamples := 0 } :
        SileroVAD)).speechSamples
    · rw [if_pos h2]
    · rw [if_neg h2]
  · rw [if_neg h1]
    by_cases h2 : (({ v with silenceSamples := v.silenceSamples + 512 } : SileroVAD)).isSpeaking ∧
        (({ v with silenceSamples := v.silenceSamples + 512 } : SileroVAD)).minSilenceSamples ≤
        (({ v with silenceSamples := v.silenceSamples + 512 } : SileroVAD)).silenceSamples
    · rw [if_pos h2]
    · rw [if_neg h2]

/-- Claim C9 as amended: for every PCM stream in which every complete
512-sample window's speech probability stays strictly below the VAD
threshold (the code treats a probability equal to the threshold as speech),
repeated application of `process_chunk` from the initial/reset state never
reports `speech_ended`. -/
theorem C9_no_speech_end_below_threshold (thr : ℚ) (probs : List ℚ)
    (h : ∀ p ∈ probs, p < thr) :
    ((SileroVAD.init thr).processWindows probs).2 = false := by
  have key : ∀ (ps : List ℚ) (v : SileroVAD), v.threshold = thr → v.isSpeaking = false →
      (∀ p ∈ ps, p < thr) → (v.processWindows ps).2 = false := by
    intro ps
    induction ps with
    | nil => intro v _ _ _; rfl
    | cons p rest ih =>
        intro v hthr hspk hall
        have hp : p < v.threshold := by rw [hthr]; exact hall p (List.mem_cons_self _ _)
        have hw := processWindow_silent v p hp hspk
        have hthr1 : (v.processWindow p).1.threshold = thr := by
          rw [processWindow_threshold]; exact hthr
        have hrest := ih (v.processWindow p).1 hthr1 hw.1
          (fun q hq => hall q (List.mem_cons_of_mem _ hq))
        show ((v.processWindow p).2 || ((v.processWindow p).1.processWindows rest).2) = false
        rw [hw.2, hrest]
        rfl
  exact key probs (SileroVAD.init thr) rfl rfl h

/-- Witness for `C9_no_speech_end_below_threshold` at a concrete quiet
stream. -/
theorem C9_witness :
    ((SileroVAD.init 1).processWindows [0, 0, 0]).2 = false := by
  exact C9_no_speech_end_below_threshold 1 [0, 0, 0] (by decide)

/-! ## Tool executor — `server/tools/executor.py`

A handler invocation is an external effect; its outcome (a value, a raised
exception, or exceeding the `asyncio.wait_for` deadline) is an input of the
model. The `try/except` boundary of `execute` is modelled explicitly: the
body is a computation in `Except PyExc`, and `execute` is the total function
obtained by catching every exception, which is exactly the "never propagate"
contract. The concurrency semaphore merely serialises entry and does not
change the returned value, so it has no counterpart here. -/

/-- A Python value a tool can return: either an arbitrary object rendered by
`str(...)`, or a dict carrying an optional `"text"` entry and an optional
`"flyout"` entry `(type, content)`, which is how `main.py` inspects it. -/
inductive ToolValue
  | str (s : String)
  | dict (text : Option String) (textRepr : String) (flyout : Option (String × String))
deriving DecidableEq

/-- Model of the `ToolResult` dataclass. -/
structure ToolResult where
  toolName : String
  success : Bool
  result : Option ToolValue
  error : Option String := none
  executionTime : ℚ := 0
deriving DecidableEq

/-- Outcome of invoking a tool handler. -/
inductive HandlerOutcome
  | returns (v : ToolValue)
  | raises (msg : String)
  | timesOut
deriving DecidableEq

/-- The exceptions the body of `execute` can raise: `asyncio.TimeoutError`
(from `wait_for` with the effective deadline) or any other `Exception`. -/
inductive PyExc
  | timeoutError (t : ℚ)
  | exc (msg : String)
deriving DecidableEq

/-- Model of `timeout = timeout or self.default_timeout`: Python `or` also
replaces an explicit 0 by the default, since `0.0` is falsy. -/
def effectiveTimeout (timeout : Option ℚ) (deflt : ℚ) : ℚ :=
  match timeout with
  | none => deflt
  | some x => if x = 0 then deflt else x

/-- The `try`-block of `ToolExecutor.execute`: registry lookup (an unknown
tool returns a failure result rather than raising), then the handler call,
whose exceptional outcomes are raised into `Except`. `elapsed` stands for
the measured `time.time() - start_time`. -/
def ToolExecutor.executeBody (registry : List String) (name : String)
    (handler : HandlerOutcome) (t elapsed : ℚ) : Except PyExc ToolResult :=
  if name ∈ registry then
    match handler with
    | HandlerOutcome.returns v =>
        Except.ok { toolName := name, success := true, result := some v, executionTime := elapsed }
    | HandlerOutcome.raises msg => Except.error (PyExc.exc msg)
    | HandlerOutcome.timesOut => Except.error (PyExc.timeoutError t)
  else
    Except.ok { toolName := name, success := false, result := none,
                error := some ("Unknown tool: " ++ name) }

/-- Model of `ToolExecutor.execute`: the body with both `except` clauses
applied, hence a total function into `ToolResult`. -/
def ToolExecutor.execute (registry : List String) (name : String)
    (handler : HandlerOutcome) (timeout : Option ℚ) (defaultTimeout elapsed : ℚ) : ToolResult :=
  match ToolExecutor.executeBody registry name handler (effectiveTimeout timeout defaultTimeout)
      elapsed with
  | Except.ok r => r
  | Except.error (PyExc.timeoutError t) =>
      { toolName := name, success := false, result := none,
        error := some ("Tool execution timed out after " ++ toString t ++ "s"),
        executionTime := t }
  | Except.error (PyExc.exc msg) =>
      { toolName := name, success := false, result := none, error := some msg,
        executionTime := elapsed }

/-! ## Claim C8 — executor error handling -/

/-- Claim C8: `execute` always returns a `ToolResult` (it is a total
function out of the `Except` body, so no exception propagates); on timeout
the failure text names the effective timeout duration, on a handler
exception the failure text is the error message, and an unknown tool name
yields a failure result rather than raising. -/
theorem C8_execute_never_propagates (registry : List String) (name : String)
    (handler : HandlerOutcome) (timeout : Option ℚ) (deflt elapsed : ℚ) :
    (name ∉ registry →
      ToolExecutor.execute registry name handler timeout deflt elapsed =
        { toolName := name, success := false, result := none,
          error := some ("Unknown tool: " ++ name) }) ∧
    (name ∈ registry → handler = HandlerOutcome.timesOut →
      ToolExecutor.execute registry name handler timeout deflt elapsed =
        { toolName := name, success := false, result := none,
          error := some ("Tool execution timed out after " ++
            toString (effectiveTimeout timeout deflt) ++ "s"),
          executionTime := effectiveTimeout timeout deflt }) ∧
    (∀ msg, name ∈ registry → handler = HandlerOutcome.raises msg →
      ToolExecutor.execute registry name handler timeout deflt elapsed =
        { toolName := name, success := false, result := none, error := some msg,
          executionTime := elapsed }) := by
  unfold ToolExecutor.execute ToolExecutor.executeBody
  refine ⟨?_, ?_, ?_⟩
  · intro hno
    rw [if_neg hno]
  · intro hyes hto
    rw [if_pos hyes, hto]
  · intro msg hyes hraise
    rw [if_pos hyes, hraise]

/-- Witness for `C8_execute_never_propagates`: a registered tool that times
out against an explicit 7-second deadline, an exception-raising handler, and
an unknown tool. -/
theorem C8_witness :
    ToolExecutor.execute ["get_weather"] "get_weather" HandlerOutcome.timesOut (some 7) 30 2 =
      { toolName := "get_weather", success := false, result := none,
        error := some "Tool execution timed out after 7s", executionTime := 7 } ∧
    ToolExecutor.execute ["get_weather"] "get_weather" (HandlerOutcome.raises "boom") none 30 2 =
      { toolName := "get_weather", success := false, result := none, error := some "boom",
        executionTime := 2 } ∧
    ToolExecutor.execute ["get_weather"] "music_play" (HandlerOutcome.returns (ToolValue.str "x"))
        none 30 2 =
      { toolName := "music_play", success := false, result := none,
        error := some "Unknown tool: music_play" } := by
  refine ⟨?_, ?_, ?_⟩
  · have h := (C8_execute_never_propagates ["get_weather"] "get_weather"
      HandlerOutcome.timesOut (some 7) 30 2).2.1 (by decide) rfl
    rw [h]
    decide
  · exact (C8_execute_never_propagates ["get_weather"] "get_weather"
      (HandlerOutcome.raises "boom") none 30 2).2.2 "boom" (by decide) rfl
  · exact (C8_execute_never_propagates ["get_weather"] "music_play"
      (HandlerOutcome.returns (ToolValue.str "x")) none 30 2).1 (by decide)

/-! ## LLM adapter — `server/llm/ollama.py` (`LLMClient._stream_chat`)

The HTTP layer and `json.loads` of each provider line are external; a
provider response is modelled as the list of already-classified lines
(`ProviderLine`). Free-text helpers that are regex/JSON machinery —
`json.loads` on an arguments payload, the fix-up of broken JSON,
`extract_json_tool_calls` and `_clean_tool_artifacts` — are supplied as an
oracle record `PyTextOps`, since no claim depends on their internals, only
on where `_stream_chat` calls them. The `pending_chunks` and
`has_yielded_text` locals of the source are write-only and are dropped. -/

/-- Phrases of the repetition guard (`["I'm ready", "I am ready", "Ready.",
"...", "I'm here"]`). -/
def repetitionPhrases : List String :=
  ["I\x27m ready", "I am ready", "Ready.", "...", "I\x27m here"]

/-- The guard's `repetition_threshold = 4`. -/
def repetitionThreshold : Nat := 4

/-- The apology substituted when the repeated phrase starts the text. -/
def apologyText : String :=
  "I apologize, I had trouble responding. Could you please rephrase your question?"

/-- Case-insensitive count of `pat` within the last 200 characters of the
accumulated text (`check_text.lower().count(pattern.lower())`). -/
def phraseCountRecent (acc : List Char) (pat : String) : Nat :=
  countOcc (lowerChars pat.data) (lowerChars (lastChars 200 acc))

/-- First phrase of the closed list repeated at least 4 times in the last
200 characters (the `for pattern in [...]` loop stops at the first hit). -/
def firstTriggered (acc : List Char) : Option String :=
  repetitionPhrases.find? (fun pat => decide (repetitionThreshold ≤ phraseCountRecent acc pat))

/-- The per-delta guard of the OpenAI/LM Studio streaming branch
(`ollama.py` lines 462–485), applied to the accumulated content right after
a non-empty text delta has been appended: above 50 characters, truncate at
a repeated phrase (or substitute the apology when the phrase starts at
index 0 or is absent from the lowered full text); afterwards, above 2000
characters, truncate to the first 1500 plus an ellipsis. Returns the new
accumulated content and the `repetition_detected` flag. This definition is
the first half (lines 462–479). -/
def repetitionTruncate (acc : List Char) : List Char × Bool :=
  if 50 < acc.length then
    match firstTriggered acc with
    | some pat =>
        match findSub (lowerChars pat.data) (lowerChars acc) with
        | some idx =>
            if 0 < idx then (stripChars (acc.take idx), true)
            else (apologyText.data, true)
        | none => (apologyText.data, true)
    | none => (acc, false)
  else (acc, false)

/-- Second guard of the same block: `if len(accumulated_content) > 2000`,
applied to the (possibly already truncated) text. -/
def lengthTruncate (p : List Char × Bool) : List Char × Bool :=
  if 2000 < p.1.length then (p.1.take 1500 ++ "...".data, true) else p

/-- The complete per-delta guard: repetition check, then length check. -/
def openaiDeltaGuard (acc : List Char) : List Char × Bool :=
  lengthTruncate (repetitionTruncate acc)

/-! ## Claim C6 — repetition guard -/

/-- Claim C6, as stated, is false on the code: twelve dots contain the
phrase `"..."` four times (non-overlapping) within the last 200 characters,
so the claim requires truncation and stream end, but the guard only engages
above 50 accumulated characters and leaves this text untouched with no
detection. (The guard moreover exists only on the OpenAI-format branch; the
Ollama branch of `_stream_chat` never checks repetition at all.) -/
theorem C6_counterexample :
    repetitionThreshold ≤ phraseCountRecent "............".data "..." ∧
    openaiDeltaGuard "............".data = ("............".data, false) := by
  constructor
  · decide
  · decide

/-- Helper: stripping whitespace never lengthens a character list. -/
theorem stripChars_length_le (s : List Char) : (stripChars s).length ≤ s.length := by
  unfold stripChars
  calc ((s.dropWhile Char.isWhitespace).reverse.dropWhile Char.isWhitespace).reverse.length
      = ((s.dropWhile Char.isWhitespace).reverse.dropWhile Char.isWhitespace).length :=
        List.length_reverse _
    _ ≤ (s.dropWhile Char.isWhitespace).reverse.length :=
        List.Sublist.length_le (List.dropWhile_sublist _)
    _ = (s.dropWhile Char.isWhitespace).length := List.length_reverse _
    _ ≤ s.length := List.Sublist.length_le (List.dropWhile_sublist _)

/-- Claim C6 as amended: the repetition guard of the OpenAI-format branch
(the Ollama branch has none) behaves as follows on the accumulated text
after a delta: (i) at 50 characters or fewer it does nothing; (ii) above 50
and at most 2000 characters, if some listed phrase occurs at least 4 times
(case-insensitively, non-overlapping) in the last 200 characters, the text
is truncated to just before the first occurrence of the first such phrase
(stripped), or replaced by a fixed apology when that occurrence starts the
text, and the stream ends; (iii) above 2000 characters with no repeated
phrase, the text is truncated to its first 1500 characters plus an
ellipsis, and the stream ends. -/
theorem C6_repetition_guard (acc : List Char) :
    (acc.length ≤ 50 → openaiDeltaGuard acc = (acc, false)) ∧
    (∀ pat idx, 50 < acc.length → acc.length ≤ 2000 →
      firstTriggered acc = some pat →
      findSub (lowerChars pat.data) (lowerChars acc) = some idx →
      openaiDeltaGuard acc =
        (if 0 < idx then stripChars (acc.take idx) else apologyText.data, true)) ∧
    (2000 < acc.length → firstTriggered acc = none →
      openaiDeltaGuard acc = (acc.take 1500 ++ "...".data, true)) := by
  have hapology : apologyText.data.length ≤ 2000 := by decide
  refine ⟨?_, ?_, ?_⟩
  · intro hle
    have h1 : repetitionTruncate acc = (acc, false) := by
      unfold repetitionTruncate
      rw [if_neg (by omega : ¬ 50 < acc.length)]
    unfold openaiDeltaGuard lengthTruncate
    rw [h1]
    exact if_neg (by simp only []; omega)
  · intro pat idx h50 h2000 htrig hfind
    have h1 : repetitionTruncate acc =
        (if 0 < idx then stripChars (acc.take idx) else apologyText.data, true) := by
      unfold repetitionTruncate
      rw [if_pos h50]
      simp only [htrig, hfind]
      by_cases hidx : 0 < idx
      · rw [if_pos hidx, if_pos hidx]
      · rw [if_neg hidx, if_neg hidx]
    have hlen : (if 0 < idx then stripChars (acc.take idx) else apologyText.data).length ≤ 2000 := by
      by_cases hidx : 0 < idx
      · rw [if_pos hidx]
        calc (stripChars (acc.take idx)).length ≤ (acc.take idx).length :=
              stripChars_length_le _
          _ ≤ acc.length := by
              rw [List.length_take]
              omega
          _ ≤ 2000 := h2000
      · rw [if_neg hidx]
        exact hapology
    unfold openaiDeltaGuard lengthTruncate
    rw [h1]
    exact if_neg (by simp only []; omega)
  · intro h2000 hnone
    have h1 : repetitionTruncate acc = (acc, false) := by
      unfold repetitionTruncate
      rw [if_pos (by omega : 50 < acc.length)]
      simp only [hnone]
    unfold openaiDeltaGuard lengthTruncate
    rw [h1]
    exact if_pos (by simp only []; omega)

/-- Witness for `C6_repetition_guard`: the guard leaves a short greeting
untouched, and truncates a 60-character text whose tail repeats a phrase. -/
theorem C6_witness :
    openaiDeltaGuard "hi".data = ("hi".data, false) := by
  exact (C6_repetition_guard "hi".data).1 (by decide)

/-! ### Stream normalization (`_stream_chat`) -/

/-- A chunk yielded by `chat`/`_stream_chat`. The source yields dicts whose
`"type"` is one of `"text"`, `"tool_call"`, `"tool_result"` — these are the
only dict literals at its yield sites. -/
inductive LLMChunk
  | text (content : String)
  | toolCall (id : String) (name : String) (arguments : List (String × String))
  | toolResult (name : String) (result : String)
deriving DecidableEq

/-- The `"type"` field of the yielded dict. -/
def LLMChunk.kind : LLMChunk → String
  | LLMChunk.text _ => "text"
  | LLMChunk.toolCall _ _ _ => "tool_call"
  | LLMChunk.toolResult _ _ => "tool_result"

/-- Raw tool-call arguments as they arrive from the provider: either a JSON
string payload or an already-decoded object (field name ↦ rendered value). -/
inductive RawArgs
  | strRaw (s : String)
  | objRaw (fields : List (String × String))
deriving DecidableEq

/-- A raw provider tool call: `tc.get("id")`, `tc["function"]["name"]`,
`tc["function"]["arguments"]`. -/
structure RawToolCall where
  id : Option String := none
  name : String
  arguments : RawArgs
deriving DecidableEq

/-- One `choices[].delta` of an OpenAI-format line. -/
structure OpenAIDelta where
  content : String := ""
  toolCalls : Option (List RawToolCall) := none
  finishReason : Bool := false
deriving DecidableEq

/-- One line of the provider's streamed response, after SSE unwrapping and
`json.loads` classification: blank, undecodable, the `[DONE]` sentinel, an
Ollama `{message: ..., done: ...}` object, or an OpenAI `{choices: [...]}`
object. -/
inductive ProviderLine
  | emptyLine
  | invalidJson
  | doneMarker
  | ollamaMsg (content : String) (toolCalls : Option (List RawToolCall)) (done : Bool)
  | openaiLine (choices : List OpenAIDelta)
deriving DecidableEq

/-- Oracle for the free-text helpers `_stream_chat` delegates to:
`jsonParse` models `json.loads` on an arguments payload (`none` = raise,
`some []` = a falsy decoded value, `some fields` = a non-empty object);
`fixBrokenJson` models the regex fix-ups plus brace balancing of lines
554–565; `extractToolCallsFromText` models `extract_json_tool_calls`;
`cleanArtifacts` models `_clean_tool_artifacts`. No claim depends on their
internals, only on where the stream loop invokes them. -/
structure PyTextOps where
  jsonParse : String → Option (List (String × String))
  fixBrokenJson : String → String
  extractToolCallsFromText : String → List (String × List (String × String))
  cleanArtifacts : String → String

/-- A registered tool definition as consulted by the required-parameters
check (`self._tools`, reduced to the function name and `required` list). -/
structure ToolFunctionDef where
  name : String
  required : List String
deriving DecidableEq

/-- A registered tool handler (`self._tool_handlers`): may return a rendered
result or raise. -/
def HandlerMap : Type := List (String × (List (String × String) → Except String String))

/-- Accumulation state of the line loop of `_stream_chat`
(`accumulated_content`, `tool_calls`, and whether the loop has broken). -/
structure StreamAccState where
  acc : List Char
  toolCalls : List RawToolCall
  stop : Bool
deriving Inhabited

/-- Ollama-format line handling (lines 426–448): append content, collect
`tool_calls` when the key is present, break when `done`. -/
def processOllamaLine (st : StreamAccState) (content : String)
    (tcs : Option (List RawToolCall)) (done : Bool) : StreamAccState :=
  let st1 : StreamAccState := { st with acc := st.acc ++ content.data }
  let st2 : StreamAccState :=
    match tcs with
    | some l => { st1 with toolCalls := st1.toolCalls ++ l }
    | none => st1
  if done then { st2 with stop := true } else st2

/-- OpenAI-format choices loop (lines 450–493): per delta, append content
and run the repetition guard, collect `delta.tool_calls`, and break the
choices loop on a `finish_reason`. Returns the state and the line's
`repetition_detected` flag. -/
def processChoices (st : StreamAccState) (det : Bool) :
    List OpenAIDelta → StreamAccState × Bool
  | [] => (st, det)
  | d :: rest =>
      let p : StreamAccState × Bool :=
        if d.content ≠ "" then
          let g := openaiDeltaGuard (st.acc ++ d.content.data)
          ({ st with acc := g.1 }, det || g.2)
        else (st, det)
      let st2 : StreamAccState :=
        match d.toolCalls with
        | some l => { p.1 with toolCalls := p.1.toolCalls ++ l }
        | none => p.1
      if d.finishReason then (st2, p.2) else processChoices st2 p.2 rest

/-- Dispatch of one provider line inside the `aiter_lines` loop. -/
def processLine (backend : String) (st : StreamAccState) : ProviderLine → StreamAccState
  | ProviderLine.emptyLine => st
  | ProviderLine.invalidJson => st
  | ProviderLine.doneMarker => { st with stop := true }
  | ProviderLine.ollamaMsg c tcs done =>
      if backend = "ollama" then processOllamaLine st c tcs done else st
  | ProviderLine.openaiLine choices =>
      let p := processChoices st false choices
      if p.2 then { p.1 with stop := true } else p.1

/-- The whole line loop; a set `stop` flag models the `break` statements. -/
def streamLoop (backend : String) (st : StreamAccState) : List ProviderLine → StreamAccState
  | [] => st
  | l :: ls => if st.stop then st else streamLoop backend (processLine backend st l) ls

/-- Post-loop validation state (lines 504–538): surviving calls, whether
text extraction is needed, collected argument fragments, and the last
recognised tool name. -/
structure TCValidation where
  valid : List RawToolCall
  needsExtraction : Bool
  fragments : List String
  mainToolName : Option String

/-- Classification of each collected tool call (lines 509–538). -/
def validateToolCalls (ops : PyTextOps) (handlerNames : List String)
    (tcs : List RawToolCall) : TCValidation :=
  tcs.foldl
    (fun v tc =>
      let v1 : TCValidation :=
        if tc.name ≠ "" ∧ tc.name ∈ handlerNames then { v with mainToolName := some tc.name }
        else v
      match tc.arguments with
      | RawArgs.strRaw s =>
          if pyStrip s ≠ "" then
            match ops.jsonParse s with
            | some fields =>
                if fields ≠ [] then { v1 with valid := v1.valid ++ [tc] }
                else { v1 with needsExtraction := true }
            | none =>
                { v1 with fragments := v1.fragments ++ [s], needsExtraction := true }
          else { v1 with fragments := v1.fragments ++ [s], needsExtraction := true }
      | RawArgs.objRaw fields =>
          if fields ≠ [] then { v1 with valid := v1.valid ++ [tc] }
          else { v1 with needsExtraction := true })
    { valid := [], needsExtraction := false, fragments := [], mainToolName := none }

/-- Fragment reconstruction (lines 541–576): join the fragments, try to
parse, then try the fixed-up JSON; a truthy parse replaces the valid list
with the single reconstructed call. -/
def reconstructFromFragments (ops : PyTextOps) (v : TCValidation) : TCValidation :=
  if v.needsExtraction ∧ v.fragments ≠ [] then
    match v.mainToolName with
    | some m =>
        let reconstructed := String.join v.fragments
        match ops.jsonParse reconstructed with
        | some fields =>
            if fields ≠ [] then
              { v with valid := [{ id := none, name := m, arguments := RawArgs.objRaw fields }],
                       needsExtraction := false }
            else v
        | none =>
            match ops.jsonParse (ops.fixBrokenJson reconstructed) with
            | some fields =>
                if fields ≠ [] then
                  { v with
                      valid := [{ id := none, name := m, arguments := RawArgs.objRaw fields }],
                      needsExtraction := false }
                else v
            | none => v
    | none => v
  else v

/-- Text-extraction fallback for calls with empty arguments (lines
579–586). -/
def extractionFallback (ops : PyTextOps) (v : TCValidation) (accStr : String)
    (tools : List ToolFunctionDef) : List RawToolCall :=
  if v.needsExtraction ∧ accStr ≠ "" ∧ tools ≠ [] then
    let textCalls := ops.extractToolCallsFromText accStr
    if textCalls ≠ [] then
      textCalls.map (fun p => { id := none, name := p.1, arguments := RawArgs.objRaw p.2 })
    else v.valid
  else v.valid

/-- Emission for one surviving tool call (lines 606–681): skip unknown
names, decode string arguments (with per-tool text extraction as fallback),
skip empty arguments when the tool declares required parameters, then yield
the `tool_call` chunk, run the registered handler, and yield the
`tool_result` chunk (errors become `"Error: ..."` text). -/
def emitToolCall (ops : PyTextOps) (handlers : HandlerMap)
    (tools : List ToolFunctionDef) (accStr : String) (tc : RawToolCall) : List LLMChunk :=
  let name := tc.name
  if name = "" then []
  else
    match List.find? (fun p => p.1 = name) handlers with
    | none => []
    | some h =>
        let args : List (String × String) :=
          match tc.arguments with
          | RawArgs.objRaw f => f
          | RawArgs.strRaw s =>
              match ops.jsonParse s with
              | some f => f
              | none =>
                  if accStr ≠ "" then
                    match List.find? (fun p => p.1 = name)
                        (ops.extractToolCallsFromText accStr) with
                    | some p => p.2
                    | none => []
                  else []
        let requiredMissing : Bool :=
          match List.find? (fun t => t.name = name) tools with
          | some t => decide (t.required ≠ [])
          | none => false
        if args.isEmpty && requiredMissing then []
        else
          let callChunk := LLMChunk.toolCall (tc.id.getD ("call_" ++ name)) name args
          let resChunk :=
            match h.2 args with
            | Except.ok r => LLMChunk.toolResult name r
            | Except.error e => LLMChunk.toolResult name ("Error: " ++ e)
          [callChunk, resChunk]

/-- Model of `_stream_chat`: the line loop, tool-call validation and repair,
and the final emission phase. Yields, in order: the cleaned text (only when
no tool call survived) followed by the per-call `tool_call`/`tool_result`
chunk pairs. No other chunk is ever produced — in particular the source has
no yield of a `finish` chunk. -/
def streamChat (ops : PyTextOps) (handlers : HandlerMap) (tools : List ToolFunctionDef)
    (backend : String) (lines : List ProviderLine) : List LLMChunk :=
  let st := streamLoop backend { acc := [], toolCalls := [], stop := false } lines
  let accStr : String := ⟨st.acc⟩
  let v := reconstructFromFragments ops
    (validateToolCalls ops (handlers.map (fun p => p.1)) st.toolCalls)
  let toolCalls := extractionFallback ops v accStr tools
  let emission : List RawToolCall × List LLMChunk :=
    if toolCalls = [] then
      let fromText : List RawToolCall :=
        if accStr ≠ "" ∧ tools ≠ [] then
          (ops.extractToolCallsFromText accStr).map
            (fun p => { id := none, name := p.1, arguments := RawArgs.objRaw p.2 })
        else []
      if fromText ≠ [] then (fromText, [])
      else if accStr ≠ "" then
        let cleaned := ops.cleanArtifacts accStr
        if pyStrip cleaned ≠ "" then ([], [LLMChunk.text cleaned]) else ([], [])
      else ([], [])
    else (toolCalls, [])
  emission.2 ++ (emission.1.map (emitToolCall ops handlers tools accStr)).flatten

/-! ## Claim C5 — finish chunks -/

/-- Every chunk constructor renders to one of the three emitted kinds. -/
theorem LLMChunk_kind_cases (c : LLMChunk) :
    c.kind = "text" ∨ c.kind = "tool_call" ∨ c.kind = "tool_result" := by
  cases c with
  | text _ => exact Or.inl rfl
  | toolCall _ _ _ => exact Or.inr (Or.inl rfl)
  | toolResult _ _ => exact Or.inr (Or.inr rfl)

/-- An inert oracle for concrete runs: parsing always fails, extraction
finds nothing, cleaning is the identity — the behaviour of the real helpers
on plain text such as `"hi"` that contains no JSON. -/
def inertTextOps : PyTextOps :=
  { jsonParse := fun _ => none
    fixBrokenJson := fun s => s
    extractToolCallsFromText := fun _ => []
    cleanArtifacts := fun s => s }

/-- A one-line Ollama response: `{"message": {"content": "hi"}, "done": true}`. -/
def simpleOllamaResponse : List ProviderLine :=
  [ProviderLine.ollamaMsg "hi" none true]

/-- Claim C5, as stated, is false: a completed streaming chat yields its text
chunk but zero `finish` chunks — `_stream_chat` has no yield site whose
`"type"` is `"finish"` (its docstring lists text, tool_call, tool_result). -/
theorem C5_counterexample :
    streamChat inertTextOps [] [] "ollama" simpleOllamaResponse = [LLMChunk.text "hi"] ∧
    List.countP (fun c => c.kind == "finish")
      (streamChat inertTextOps [] [] "ollama" simpleOllamaResponse) = 0 := by
  constructor
  · rfl
  · rfl

/-- Claim C5 as amended: a streaming chat completion never emits a `finish`
chunk, for every backend, provider response, oracle and tool configuration;
every emitted chunk is a `text`, `tool_call` or `tool_result` chunk, and
stream end is signalled only by generator exhaustion. -/
theorem C5_no_finish_chunk (ops : PyTextOps) (handlers : HandlerMap)
    (tools : List ToolFunctionDef) (backend : String) (lines : List ProviderLine) :
    ∀ c ∈ streamChat ops handlers tools backend lines, c.kind ≠ "finish" := by
  intro c _
  rcases LLMChunk_kind_cases c with h | h | h <;> rw [h] <;> decide

/-- Witness for `C5_no_finish_chunk` at the concrete one-line response. -/
theorem C5_witness :
    (LLMChunk.text "hi").kind ≠ "finish" := by
  exact C5_no_finish_chunk inertTextOps [] [] "ollama" simpleOllamaResponse
    (LLMChunk.text "hi") (by rw [show streamChat inertTextOps [] [] "ollama"
      simpleOllamaResponse = [LLMChunk.text "hi"] from rfl]; exact List.mem_singleton.mpr rfl)

/-! ## Orchestrator — `server/main.py` (`process_audio_pipeline`)

The turn runner (lines 765–1010, from `set_state(PROCESSING)` onwards) is
modelled as a pure function of: the STT transcript, the primary LLM chunk
stream plus an optional error raised at its end (an error after a prefix of
chunks is obtained by choosing that prefix as the stream), the follow-up
chunk stream, the TTS chunk stream, the tool executor's behaviour, and the
index (if any) at which a concurrent barge-in raises the stop flag during
TTS. The `tool_tutor` global is modelled as disabled (`None`), its default.
Outbound `send_json` calls become an ordered list of `Frame`s.
`Frame.interruptF` exists in the codebase only at the dead
`AudioPipeline._handle_barge_in` (`server/audio/pipeline.py`, written
against a different `Session` API and instantiated nowhere); it is included
in the frame alphabet so that its absence from the live handler's output is
expressible. -/

/-- An outbound JSON frame, reduced to its type tag and payload. -/
inductive Frame
  | stateF (s : String)
  | transcriptF (text : String)
  | responseChunkF (text : String)
  | toolCallF (tool : String)
  | toolResultF (tool : String) (result : String)
  | flyoutF (flyoutType : String) (content : String)
  | responseF (text : String)
  | audioF (data : String)
  | errorF (msg : String)
  | interruptF (reason : String)
deriving DecidableEq

/-- Whether a frame is an `interrupt` control frame. -/
def isInterruptFrame : Frame → Bool
  | Frame.interruptF _ => true
  | _ => false

/-- Result text and flyout payload extracted from a `ToolResult` by
`main.py` lines 871–887: on success, a dict result contributes its
`"text"` entry (default: its `str(...)` rendering) and its optional
`"flyout"`; any other value is rendered by `str(...)`; on failure the text
is `result.error`. -/
def toolResultText (r : ToolResult) : String × Option (String × String) :=
  if r.success then
    match r.result with
    | some (ToolValue.dict text textRepr flyout) => (text.getD textRepr, flyout)
    | some (ToolValue.str s) => (s, none)
    | none => ("None", none)
  else (r.error.getD "", none)

/-- State threaded through the LLM chunk loop of the turn runner:
`full_response`, the conversation, and the frames sent so far. -/
structure TurnLoopState where
  full : String
  conv : ConversationHistory
  frames : List Frame
deriving DecidableEq

/-- One iteration of the primary chunk loop (lines 827–915, tutor
disabled): a text chunk extends `full_response` and sends it as the
running-prefix `response_chunk`; a tool_call chunk sends the `tool_call`
frame, executes the tool, sends the optional `flyout` frame and the
`tool_result` frame, and appends a tool message to the conversation only
when the result succeeded; chunks of other types have no branch in the
source loop and are skipped. -/
def processTurnChunk (executor : String → List (String × String) → ToolResult)
    (st : TurnLoopState) : LLMChunk → TurnLoopState
  | LLMChunk.text c =>
      { st with full := st.full ++ c,
                frames := st.frames ++ [Frame.responseChunkF (st.full ++ c)] }
  | LLMChunk.toolCall id name args =>
      let r := executor name args
      let p := toolResultText r
      let flyoutFrames : List Frame :=
        match p.2 with
        | some fd => [Frame.flyoutF fd.1 fd.2]
        | none => []
      { st with
          frames := st.frames ++ [Frame.toolCallF name] ++ flyoutFrames ++
            [Frame.toolResultF name p.1],
          conv := if r.success then st.conv.addToolResult id name p.1 else st.conv }
  | LLMChunk.toolResult _ _ => st

/-- One iteration of the follow-up chunk loop (lines 927–935), which only
consumes text chunks. -/
def processFollowupChunk (st : TurnLoopState) : LLMChunk → TurnLoopState
  | LLMChunk.text c =>
      { st with full := st.full ++ c,
                frames := st.frames ++ [Frame.responseChunkF (st.full ++ c)] }
  | _ => st

/-- Model of the user-facing error classification (lines 942–950). -/
def classifyLLMError (model msg : String) : String :=
  if containsSub "404".data msg.data || containsSub "not found".data (lowerChars msg.data) then
    "Model \x27" ++ model ++ "\x27 not found. Please check Settings and use an available model like \x27llama3.2\x27."
  else if containsSub "500".data msg.data then
    "LLM server error. Make sure Ollama is running and the model \x27" ++ model ++ "\x27 is pulled."
  else if containsSub "connection".data (lowerChars msg.data) then
    "Cannot connect to LLM server. Make sure Ollama is running."
  else "LLM error: " ++ (⟨msg.data.take 100⟩ : String)

/-- Audio emission loop (lines 985–999): before each TTS chunk the code
checks `session.should_stop()`; `bargeInAt = some j` means a concurrent
barge-in makes the flag observable from the `j`-th check onwards. -/
def ttsStopCheck (bargeInAt : Option Nat) (i : Nat) : Bool :=
  match bargeInAt with
  | some j => decide (j ≤ i)
  | none => false

/-- The audio frame sequence produced by the TTS loop. -/
def ttsFrames (bargeInAt : Option Nat) : Nat → List String → List Frame
  | _, [] => []
  | i, c :: rest =>
      if ttsStopCheck bargeInAt i then []
      else Frame.audioF c :: ttsFrames bargeInAt (i + 1) rest

/-- Result of one run of the turn runner. -/
structure TurnResult where
  frames : List Frame
  conv : ConversationHistory
  finalState : SessionState
  full : String
deriving DecidableEq

/-- Model of the turn runner, `main.py` lines 765–1010: transition to
Processing and announce it; abandon the turn on an empty transcript; send
the transcript and append the user message; run the primary LLM chunk loop;
on an LLM error send the classified `error` frame and return to Listening;
run the follow-up stream when no text arrived but the last conversation
entry is a tool result; return to Listening when the response is empty;
otherwise append the assistant message, send `response`, enter Speaking and
stream the audio. The turn ends still in Speaking (the client's
`playback_done` arrives later). `turnStart` is the loop state right after
the `state(processing)` and `transcript` frames have been sent and the user
message appended. -/
def turnStart (stt : String) (conv0 : ConversationHistory) : TurnLoopState :=
  { full := "", conv := conv0.addUserMessage stt,
    frames := [Frame.stateF "processing", Frame.transcriptF stt] }

/-- Whether the follow-up stream fires (line 921–923): no text so far, and
the last conversation entry — `get_messages()` always starts with the
system message, so an empty log yields role `"system"` — is a tool
result. -/
def followupWanted (st1 : TurnLoopState) : Bool :=
  st1.full == "" &&
    (match st1.conv.messages.getLast? with
     | some m => m.role == "tool"
     | none => false)

/-- The turn runner after the primary chunk loop: LLM-error path (lines
938–958), follow-up stream, empty-response exit (960–963), and the
response/Speaking/audio tail (968–1010). -/
def finishTurn (llmErr : Option String) (followupChunks : List LLMChunk)
    (ttsChunks : List String) (bargeInAt : Option Nat) (model : String)
    (st1 : TurnLoopState) : TurnResult :=
  match llmErr with
  | some msg =>
      { frames := st1.frames ++ [Frame.errorF (classifyLLMError model msg),
          Frame.stateF "listening"],
        conv := st1.conv, finalState := SessionState.listening, full := st1.full }
  | none =>
      let st2 := if followupWanted st1 then followupChunks.foldl processFollowupChunk st1 else st1
      if st2.full = "" then
        { frames := st2.frames ++ [Frame.stateF "listening"], conv := st2.conv,
          finalState := SessionState.listening, full := "" }
      else
        { frames := st2.frames ++ [Frame.responseF st2.full, Frame.stateF "speaking"] ++
            ttsFrames bargeInAt 0 ttsChunks,
          conv := st2.conv.addAssistantMessage st2.full none,
          finalState := SessionState.speaking, full := st2.full }

def runTurn (executor : String → List (String × String) → ToolResult) (stt : String)
    (chunks : List LLMChunk) (llmErr : Option String) (followupChunks : List LLMChunk)
    (ttsChunks : List String) (bargeInAt : Option Nat) (model : String)
    (conv0 : ConversationHistory) : TurnResult :=
  if pyStrip stt = "" then
    { frames := [Frame.stateF "processing", Frame.stateF "listening"],
      conv := conv0, finalState := SessionState.listening, full := "" }
  else
    finishTurn llmErr followupChunks ttsChunks bargeInAt model
      (chunks.foldl (processTurnChunk executor) (turnStart stt conv0))

/-! ### The claimed outbound frame order, as a prefix automaton

This definition follows the spec's words, not the source: the pattern
`state(processing), transcript, (response_chunk | tool_call | tool_result)*,
response, state(speaking), audio*, state(listening|idle)`, read as an
automaton whose every state can be completed to a full word, so that a
frame list is a prefix of the pattern's language iff the automaton never
dies while consuming it. -/

/-- One step of the pattern automaton. -/
def stepPat : Nat → Frame → Option Nat
  | 0, Frame.stateF s => if s = "processing" then some 1 else none
  | 1, Frame.transcriptF _ => some 2
  | 2, Frame.responseChunkF _ => some 2
  | 2, Frame.toolCallF _ => some 2
  | 2, Frame.toolResultF _ _ => some 2
  | 2, Frame.responseF _ => some 3
  | 3, Frame.stateF s => if s = "speaking" then some 4 else none
  | 4, Frame.audioF _ => some 4
  | 4, Frame.stateF s => if s = "listening" ∨ s = "idle" then some 5 else none
  | _, _ => none

/-- Run of the pattern automaton. -/
def runPat (q : Nat) : List Frame → Option Nat
  | [] => some q
  | f :: fs =>
      match stepPat q f with
      | some q2 => runPat q2 fs
      | none => none

/-- A frame list is a prefix of the claimed per-turn pattern iff the
automaton survives it. -/
def frameOrderOk (fs : List Frame) : Bool := (runPat 0 fs).isSome

/-- Splitting lemma for automaton runs. -/
theorem runPat_append (xs : List Frame) :
    ∀ (q : Nat) (ys : List Frame),
      runPat q (xs ++ ys) =
        match runPat q xs with
        | some q2 => runPat q2 ys
        | none => none := by
  induction xs with
  | nil => intro q ys; rfl
  | cons f fs ih =>
      intro q ys
      have hcons : ∀ zs, runPat q (f :: zs) =
          match stepPat q f with
          | some q2 => runPat q2 zs
          | none => none := fun _ => rfl
      rw [show (f :: fs) ++ ys = f :: (fs ++ ys) from rfl, hcons, hcons]
      cases stepPat q f with
      | some q2 => exact ih q2 ys
      | none => rfl

/-! ## Claim C1 — per-turn outbound frame order -/

/-- Helper: one chunk whose tool result (if any) carries no flyout keeps the
pattern automaton in the middle state. -/
theorem processTurnChunk_pattern (executor : String → List (String × String) → ToolResult)
    (st : TurnLoopState) (c : LLMChunk)
    (hfly : ∀ id name args, c = LLMChunk.toolCall id name args →
      (toolResultText (executor name args)).2 = none) :
    ∃ d, (processTurnChunk executor st c).frames = st.frames ++ d ∧ runPat 2 d = some 2 := by
  cases c with
  | text t =>
      exact ⟨[Frame.responseChunkF (st.full ++ t)], rfl, rfl⟩
  | toolCall id name args =>
      refine ⟨[Frame.toolCallF name, Frame.toolResultF name (toolResultText (executor name args)).1],
        ?_, rfl⟩
      show st.frames ++ [Frame.toolCallF name] ++
          (match (toolResultText (executor name args)).2 with
           | some fd => [Frame.flyoutF fd.1 fd.2]
           | none => []) ++
          [Frame.toolResultF name (toolResultText (executor name args)).1] = _
      rw [hfly id name args rfl]
      simp
  | toolResult n r =>
      exact ⟨[], (List.append_nil _).symm, rfl⟩

/-- Helper: the primary chunk loop keeps the automaton in the middle state
when no tool result carries a flyout. -/
theorem chunkLoop_pattern (executor : String → List (String × String) → ToolResult)
    (chunks : List LLMChunk) :
    ∀ st : TurnLoopState,
      (∀ id name args, LLMChunk.toolCall id name args ∈ chunks →
        (toolResultText (executor name args)).2 = none) →
      ∃ d, (chunks.foldl (processTurnChunk executor) st).frames = st.frames ++ d ∧
        runPat 2 d = some 2 := by
  induction chunks with
  | nil =>
      intro st _
      exact ⟨[], (List.append_nil _).symm, rfl⟩
  | cons c rest ih =>
      intro st hfly
      obtain ⟨d1, hd1, hp1⟩ := processTurnChunk_pattern executor st c
        (fun id name args hc => hfly id name args (hc ▸ List.mem_cons_self _ _))
      obtain ⟨d2, hd2, hp2⟩ := ih (processTurnChunk executor st c)
        (fun id name args hm => hfly id name args (List.mem_cons_of_mem _ hm))
      refine ⟨d1 ++ d2, ?_, ?_⟩
      · rw [List.foldl_cons, hd2, hd1, List.append_assoc]
      · rw [runPat_append, hp1]
        exact hp2

/-- Helper: the follow-up loop (text chunks only) keeps the automaton in
the middle state. -/
theorem followupLoop_pattern (chunks : List LLMChunk) :
    ∀ st : TurnLoopState,
      ∃ d, (chunks.foldl processFollowupChunk st).frames = st.frames ++ d ∧
        runPat 2 d = some 2 := by
  induction chunks with
  | nil =>
      intro st
      exact ⟨[], (List.append_nil _).symm, rfl⟩
  | cons c rest ih =>
      intro st
      obtain ⟨d2, hd2, hp2⟩ := ih (processFollowupChunk st c)
      have h1 : ∃ d1, (processFollowupChunk st c).frames = st.frames ++ d1 ∧
          runPat 2 d1 = some 2 := by
        cases c with
        | text t => exact ⟨[Frame.responseChunkF (st.full ++ t)], rfl, rfl⟩
        | toolCall id name args => exact ⟨[], (List.append_nil _).symm, rfl⟩
        | toolResult n r => exact ⟨[], (List.append_nil _).symm, rfl⟩
      obtain ⟨d1, hd1, hp1⟩ := h1
      refine ⟨d1 ++ d2, ?_, ?_⟩
      · rw [List.foldl_cons, hd2, hd1, List.append_assoc]
      · rw [runPat_append, hp1]
        exact hp2

/-- Helper: the audio loop only emits `audio` frames, which keep the
automaton in its audio state. -/
theorem ttsFrames_pattern (bargeInAt : Option Nat) (ttsChunks : List String) :
    ∀ i : Nat, runPat 4 (ttsFrames bargeInAt i ttsChunks) = some 4 := by
  induction ttsChunks with
  | nil => intro i; rfl
  | cons c rest ih =>
      intro i
      unfold ttsFrames
      by_cases hstop : ttsStopCheck bargeInAt i = true
      · rw [if_pos hstop]
        rfl
      · rw [if_neg hstop]
        show runPat 4 (Frame.audioF c :: ttsFrames bargeInAt (i + 1) rest) = some 4
        exact ih (i + 1)

/-- Helper: `finishTurn` without an LLM error and with a non-empty final
response completes the claimed pattern from the middle state. -/
theorem finishTurn_pattern (followupChunks : List LLMChunk) (ttsChunks : List String)
    (bargeInAt : Option Nat) (model : String) (st1 : TurnLoopState)
    (hmid : runPat 0 st1.frames = some 2)
    (hfull : (finishTurn none followupChunks ttsChunks bargeInAt model st1).full ≠ "") :
    frameOrderOk (finishTurn none followupChunks ttsChunks bargeInAt model st1).frames = true := by
  have key : ∀ st2 : TurnLoopState, runPat 0 st2.frames = some 2 → ¬ (st2.full = "") →
      frameOrderOk (st2.frames ++ [Frame.responseF st2.full, Frame.stateF "speaking"] ++
        ttsFrames bargeInAt 0 ttsChunks) = true := by
    intro st2 hmid2 _
    unfold frameOrderOk
    rw [runPat_append, runPat_append, hmid2]
    show (runPat 4 (ttsFrames bargeInAt 0 ttsChunks)).isSome = true
    rw [ttsFrames_pattern]
    rfl
  have hfe : ∀ st2 : TurnLoopState,
      (if followupWanted st1 then followupChunks.foldl processFollowupChunk st1 else st1) = st2 →
      finishTurn none followupChunks ttsChunks bargeInAt model st1 =
        (if st2.full = "" then
          { frames := st2.frames ++ [Frame.stateF "listening"], conv := st2.conv,
            finalState := SessionState.listening, full := "" }
        else
          { frames := st2.frames ++ [Frame.responseF st2.full, Frame.stateF "speaking"] ++
              ttsFrames bargeInAt 0 ttsChunks,
            conv := st2.conv.addAssistantMessage st2.full none,
            finalState := SessionState.speaking, full := st2.full }) := by
    intro st2 h
    rw [← h]
    rfl
  have hmid2 : runPat 0 (if followupWanted st1 then
      followupChunks.foldl processFollowupChunk st1 else st1).frames = some 2 := by
    by_cases hfw : followupWanted st1 = true
    · rw [if_pos hfw]
      obtain ⟨d, hd, hp⟩ := followupLoop_pattern followupChunks st1
      rw [hd, runPat_append, hmid]
      exact hp
    · rw [if_neg hfw]
      exact hmid
  rw [hfe _ rfl] at hfull ⊢
  by_cases hempty : (if followupWanted st1 then
      followupChunks.foldl processFollowupChunk st1 else st1).full = ""
  · rw [if_pos hempty] at hfull
    exact absurd rfl hfull
  · rw [if_neg hempty] at hfull ⊢
    exact key _ hmid2 hempty

/-- A tool executor whose every call fails, for concrete runs. -/
def failingExec : String → List (String × String) → ToolResult :=
  fun name _ =>
    { toolName := name, success := false, result := none, error := some "Error: boom" }

/-- Claim C1, as stated, is false: a turn whose transcript comes back empty
emits `state(processing)` directly followed by `state(listening)`, which is
not a prefix of the claimed pattern (there, `transcript` must follow). The
`flyout` frame and the `error` frame likewise escape the claimed
alphabet. -/
theorem C1_counterexample :
    (runTurn failingExec "" [] none [] [] none "llama3.2"
        (ConversationHistory.mkDefault "sys")).frames =
      [Frame.stateF "processing", Frame.stateF "listening"] ∧
    frameOrderOk (runTurn failingExec "" [] none [] [] none "llama3.2"
      (ConversationHistory.mkDefault "sys")).frames = false := by
  constructor
  · rfl
  · rfl

/-- Claim C1 as amended: for every turn whose transcript is non-empty after
stripping, whose LLM stream raises no error, whose final response text is
non-empty, and in which no tool result carries a flyout attachment, the
outbound frame sequence is a prefix of
`state(processing), transcript, (response_chunk | tool_call | tool_result)*,
response, state(speaking), audio*, state(listening|idle)`. (Turns that
exit early — empty transcript, empty response, LLM error — instead end
with frames outside this pattern: an immediate `state(listening)` or an
`error` frame; a successful tool result with a flyout attachment inserts a
`flyout` frame between `tool_call` and `tool_result`.) -/
theorem C1_frame_order (executor : String → List (String × String) → ToolResult)
    (stt : String) (chunks followupChunks : List LLMChunk) (ttsChunks : List String)
    (bargeInAt : Option Nat) (model : String) (conv0 : ConversationHistory)
    (hstt : ¬ (pyStrip stt = ""))
    (hfly : ∀ id name args, LLMChunk.toolCall id name args ∈ chunks →
      (toolResultText (executor name args)).2 = none)
    (hfull : (runTurn executor stt chunks none followupChunks ttsChunks bargeInAt model
      conv0).full ≠ "") :
    frameOrderOk (runTurn executor stt chunks none followupChunks ttsChunks bargeInAt model
      conv0).frames = true := by
  have hrw : runTurn executor stt chunks none followupChunks ttsChunks bargeInAt model conv0 =
      finishTurn none followupChunks ttsChunks bargeInAt model
        (chunks.foldl (processTurnChunk executor) (turnStart stt conv0)) := by
    unfold runTurn
    rw [if_neg hstt]
  rw [hrw]
  rw [hrw] at hfull
  apply finishTurn_pattern _ _ _ _ _ _ hfull
  obtain ⟨d, hd, hp⟩ := chunkLoop_pattern executor chunks (turnStart stt conv0) hfly
  rw [hd]
  rw [runPat_append]
  have hstart : runPat 0 (turnStart stt conv0).frames = some 2 := rfl
  rw [hstart]
  exact hp

/-- Witness for `C1_frame_order`: the no-tool happy turn of the spec's
scenario 2 — transcript `"hello"`, streamed `"hi!"`, one audio chunk. -/
theorem C1_witness :
    frameOrderOk (runTurn failingExec "hello"
      [LLMChunk.text "h", LLMChunk.text "i", LLMChunk.text "!"] none [] ["chunk1"] none
      "llama3.2" (ConversationHistory.mkDefault "sys")).frames = true := by
  exact C1_frame_order failingExec "hello"
    [LLMChunk.text "h", LLMChunk.text "i", LLMChunk.text "!"] [] ["chunk1"] none
    "llama3.2" (ConversationHistory.mkDefault "sys") (by decide)
    (by intro id name args hm; simp at hm) (by decide)

/-! ## Claim C4 — tool failures never terminate the turn -/

/-- Claim C4 as amended: a failed tool call sends the `tool_call` frame and
a `tool_result` frame carrying the executor's error text, leaves both the
accumulated response and the conversation unchanged — the tool-role message
is appended only for successful results — and the loop continues with the
remaining chunks of the turn. -/
theorem C4_tool_failure (executor : String → List (String × String) → ToolResult)
    (st : TurnLoopState) (id name : String) (args : List (String × String))
    (hfail : (executor name args).success = false) :
    processTurnChunk executor st (LLMChunk.toolCall id name args) =
      { st with frames := st.frames ++ [Frame.toolCallF name,
          Frame.toolResultF name ((executor name args).error.getD "")] } ∧
    ∀ rest : List LLMChunk,
      (LLMChunk.toolCall id name args :: rest).foldl (processTurnChunk executor) st =
        rest.foldl (processTurnChunk executor)
          (processTurnChunk executor st (LLMChunk.toolCall id name args)) := by
  constructor
  · have hres : toolResultText (executor name args) = ((executor name args).error.getD "", none) := by
      unfold toolResultText
      rw [if_neg (by rw [hfail]; exact Bool.false_ne_true)]
    show { st with
        frames := st.frames ++ [Frame.toolCallF name] ++
          (match (toolResultText (executor name args)).2 with
           | some fd => [Frame.flyoutF fd.1 fd.2]
           | none => []) ++
          [Frame.toolResultF name (toolResultText (executor name args)).1],
        conv := if (executor name args).success then
            st.conv.addToolResult id name (toolResultText (executor name args)).1
          else st.conv } = _
    rw [hres, hfail]
    simp
  · intro rest
    rfl

/-- Witness for `C4_tool_failure` at a concrete failing executor. -/
theorem C4_witness :
    processTurnChunk failingExec (turnStart "hi" (ConversationHistory.mkDefault "sys"))
        (LLMChunk.toolCall "call_1" "get_current_time" []) =
      { turnStart "hi" (ConversationHistory.mkDefault "sys") with
        frames := (turnStart "hi" (ConversationHistory.mkDefault "sys")).frames ++
          [Frame.toolCallF "get_current_time",
           Frame.toolResultF "get_current_time" "Error: boom"] } := by
  exact (C4_tool_failure failingExec (turnStart "hi" (ConversationHistory.mkDefault "sys"))
    "call_1" "get_current_time" [] rfl).1

/-- Claim C4, as stated, is false in its conversation clause: in a turn with
one failing tool call the error is sent to the client as a `tool_result`
frame and the turn continues to the final `response`, but the conversation
ends with no tool-role message at all — `main.py` appends the tool result
only under `if result.success:` (line 896), so the LLM never sees the error
on the next call. -/
theorem C4_counterexample :
    Frame.toolResultF "get_current_time" "Error: boom" ∈
      (runTurn failingExec "what time is it"
        [LLMChunk.toolCall "call_1" "get_current_time" [],
         LLMChunk.text "Sorry, my clock is broken."] none [] [] none "llama3.2"
        (ConversationHistory.mkDefault "sys")).frames ∧
    Frame.responseF "Sorry, my clock is broken." ∈
      (runTurn failingExec "what time is it"
        [LLMChunk.toolCall "call_1" "get_current_time" [],
         LLMChunk.text "Sorry, my clock is broken."] none [] [] none "llama3.2"
        (ConversationHistory.mkDefault "sys")).frames ∧
    ((runTurn failingExec "what time is it"
        [LLMChunk.toolCall "call_1" "get_current_time" [],
         LLMChunk.text "Sorry, my clock is broken."] none [] [] none "llama3.2"
        (ConversationHistory.mkDefault "sys")).conv.messages.countP
      (fun m => m.role == "tool")) = 0 := by
  refine ⟨?_, ?_, ?_⟩
  · decide
  · decide
  · decide

/-! ## Audio ingress — `main.py` lines 647–756 (before the turn runner)

One invocation of `process_audio_pipeline` for one binary frame, up to the
point where control would pass to the turn runner (`turnStarted`). The two
VAD outputs the handler reads — `is_speaking` and `speech_ended` — are
inputs, as is whether the processing lock is currently held by another run
(`lockHeld`). `vadRan`, `vadWasReset` and `interruptCalled` record,
respectively, whether `process_chunk`, `reset` and `session.interrupt()`
were invoked during the run. -/

/-- Outcome of the ingress part of `process_audio_pipeline`. -/
structure IngressResult where
  session : Session
  frames : List Frame
  vadRan : Bool
  vadWasReset : Bool
  interruptCalled : Bool
  turnStarted : Bool
  snapshot : List Nat
deriving DecidableEq

/-- An ingress run that stops before the turn: only the session and frames
vary. -/
def ingressStop (s : Session) (frames : List Frame) (vadRan : Bool) : IngressResult :=
  { session := s, frames := frames, vadRan := vadRan, vadWasReset := false,
    interruptCalled := false, turnStarted := false, snapshot := [] }

/-- Model of the ingress flow: the Speaking-timeout auto-reset (lines
649–658), the barge-in path for frames flagged TTS-playing (664–697), the
Processing/non-Listening discards (699–705), buffering plus VAD (707–728),
and the locked section up to the buffer snapshot, clear and VAD reset
(730–756). -/
def processAudioIngress (vadIsSpeaking vadSpeechEnded lockHeld ttsPlaying : Bool)
    (audio : List Nat) (now : ℚ) (s0 : Session) : IngressResult :=
  let timedOut := s0.checkSpeakingTimeout now
  let s := if timedOut then s0.setState SessionState.idle now else s0
  let frames0 : List Frame := if timedOut then [Frame.stateF "idle"] else []
  let tts := if timedOut then false else ttsPlaying
  if tts then
    if vadIsSpeaking then
      let s1 := s.interrupt
      let s2 : Session := { s1 with audioBuffer := [] }
      let s3 := s2.setState SessionState.listening now
      { session := s3,
        frames := frames0 ++ [Frame.stateF "interrupted", Frame.stateF "listening"],
        vadRan := true, vadWasReset := true, interruptCalled := true,
        turnStarted := false, snapshot := [] }
    else ingressStop s frames0 true
  else if s.state = SessionState.processing then ingressStop s frames0 false
  else if s.state ≠ SessionState.listening then ingressStop s frames0 false
  else
    let s1 : Session := { s with audioBuffer := s.audioBuffer ++ audio }
    if ¬ vadSpeechEnded then ingressStop s1 frames0 true
    else if s1.audioBuffer.length < 8000 then ingressStop s1 frames0 true
    else if lockHeld then ingressStop s1 frames0 true
    else if s1.audioBuffer.length < 16000 then ingressStop s1 frames0 true
    else
      { session := { s1 with audioBuffer := [] }, frames := frames0, vadRan := true,
        vadWasReset := true, interruptCalled := false, turnStarted := true,
        snapshot := s1.audioBuffer }

/-- Helper: the fields of a session after `set_state`. -/
theorem setState_fields (s : Session) (st : SessionState) (now : ℚ) :
    (s.setState st now).state = st ∧
    (s.setState st now).stopRequested = false ∧
    (s.setState st now).audioBuffer = s.audioBuffer ∧
    (s.setState st now).conversationHistory = s.conversationHistory := by
  unfold Session.setState
  by_cases h : st = SessionState.speaking
  · rw [if_pos h]
    exact ⟨rfl, rfl, rfl, rfl⟩
  · rw [if_neg h]
    exact ⟨rfl, rfl, rfl, rfl⟩

/-! ## Claim C2 — barge-in handling -/

/-- A session currently speaking with no timeout pending and an empty stop
flag, receiving TTS-flagged audio. -/
def speakingSession : Session :=
  { state := SessionState.speaking
    audioBuffer := [1, 2, 3]
    conversationHistory := ConversationHistory.mkDefault "You are a helpful voice assistant."
    stopRequested := false
    lastActivity := 100
    speakingStarted := 100 }

/-- Helper: the sample speaking session has not hit the speaking timeout
one second into its utterance. -/
theorem speakingSession_no_timeout : speakingSession.checkSpeakingTimeout 101 = false := by
  unfold Session.checkSpeakingTimeout
  rw [if_neg]
  intro hcon
  have h2 := hcon.2
  norm_num [speakingSession] at h2

/-- Claim C2, as stated, is false in its final clause: on barge-in the
handler sends `state{interrupted}` and `state{listening}` frames, never an
`interrupt` control frame (the only `interrupt`-frame sender in the
codebase is the dead `AudioPipeline._handle_barge_in`), and the closing
`set_state(LISTENING)` clears the just-set cancel token before the handler
returns. -/
theorem C2_counterexample :
    (processAudioIngress true false false true [7] 101 speakingSession).frames =
      [Frame.stateF "interrupted", Frame.stateF "listening"] ∧
    (processAudioIngress true false false true [7] 101 speakingSession).frames.all
      (fun f => !(isInterruptFrame f)) = true ∧
    (processAudioIngress true false false true [7] 101 speakingSession).session.stopRequested =
      false := by
  have hrw : processAudioIngress true false false true [7] 101 speakingSession =
      { session := ({ speakingSession.interrupt with audioBuffer := [] } : Session).setState
          SessionState.listening 101,
        frames := [Frame.stateF "interrupted", Frame.stateF "listening"],
        vadRan := true, vadWasReset := true, interruptCalled := true,
        turnStarted := false, snapshot := [] } := by
    unfold processAudioIngress
    rw [speakingSession_no_timeout]
    rfl
  rw [hrw]
  exact ⟨rfl, rfl, rfl⟩

/-- Claim C2 as amended: whenever a binary frame arrives with the
TTS-playing flag set, the speaking timeout has not fired, and the VAD
reports the user currently speaking, the handler calls
`session.interrupt()` (setting the cancel token, which the final
`set_state(LISTENING)` clears again before the handler returns), clears the
session's PCM audio buffer, resets the VAD, transitions the session to
Listening, and sends `state{interrupted}` followed by `state{listening}`
frames — no `interrupt` control frame. The conversation is untouched and no
turn is started. -/
theorem C2_barge_in (vadSpeechEnded lockHeld : Bool) (audio : List Nat) (now : ℚ) (s : Session)
    (hnt : s.checkSpeakingTimeout now = false) :
    (processAudioIngress true vadSpeechEnded lockHeld true audio now s).frames =
      [Frame.stateF "interrupted", Frame.stateF "listening"] ∧
    (processAudioIngress true vadSpeechEnded lockHeld true audio now s).interruptCalled = true ∧
    (processAudioIngress true vadSpeechEnded lockHeld true audio now s).session.audioBuffer = [] ∧
    (processAudioIngress true vadSpeechEnded lockHeld true audio now s).vadWasReset = true ∧
    (processAudioIngress true vadSpeechEnded lockHeld true audio now s).session.state =
      SessionState.listening ∧
    (processAudioIngress true vadSpeechEnded lockHeld true audio now s).session.stopRequested =
      false ∧
    (processAudioIngress true vadSpeechEnded lockHeld true audio now s).session.conversationHistory =
      s.conversationHistory ∧
    (processAudioIngress true vadSpeechEnded lockHeld true audio now s).turnStarted = false ∧
    ((processAudioIngress true vadSpeechEnded lockHeld true audio now s).frames.all
      (fun f => !(isInterruptFrame f))) = true := by
  have hrw : processAudioIngress true vadSpeechEnded lockHeld true audio now s =
      { session := ({ s.interrupt with audioBuffer := [] } : Session).setState
          SessionState.listening now,
        frames := [Frame.stateF "interrupted", Frame.stateF "listening"],
        vadRan := true, vadWasReset := true, interruptCalled := true,
        turnStarted := false, snapshot := [] } := by
    unfold processAudioIngress
    rw [hnt]
    rfl
  rw [hrw]
  have hst : (({ s.interrupt with audioBuffer := [] } : Session).setState
      SessionState.listening now).state = SessionState.listening := by
    unfold Session.setState
    rw [if_neg (by intro h; exact absurd h (by decide))]
  have hstop : (({ s.interrupt with audioBuffer := [] } : Session).setState
      SessionState.listening now).stopRequested = false := by
    unfold Session.setState
    rw [if_neg (by intro h; exact absurd h (by decide))]
  have hconv : (({ s.interrupt with audioBuffer := [] } : Session).setState
      SessionState.listening now).conversationHistory = s.conversationHistory := by
    unfold Session.setState
    rw [if_neg (by intro h; exact absurd h (by decide))]
    show ({ s.interrupt with audioBuffer := [] } : Session).conversationHistory =
      s.conversationHistory
    show s.interrupt.conversationHistory = s.conversationHistory
    unfold Session.interrupt
    by_cases h : ({ s with stopRequested := true } : Session).state = SessionState.speaking
    · rw [if_pos h]
    · rw [if_neg h]
  have hbuf : (({ s.interrupt with audioBuffer := [] } : Session).setState
      SessionState.listening now).audioBuffer = [] := by
    unfold Session.setState
    rw [if_neg (by intro h; exact absurd h (by decide))]
  exact ⟨rfl, rfl, hbuf, rfl, hst, hstop, hconv, rfl, rfl⟩

/-- Witness for `C2_barge_in` at the concrete speaking session. -/
theorem C2_witness :
    (processAudioIngress true false false true [7] 101 speakingSession).session.state =
      SessionState.listening := by
  exact (C2_barge_in false false [7] 101 speakingSession speakingSession_no_timeout).2.2.2.2.1

/-! ## Claim C10 — discarding audio outside Listening -/

/-- A session stuck in Speaking past the 30-second timeout. -/
def timedOutSpeakingSession : Session :=
  { state := SessionState.speaking
    audioBuffer := []
    conversationHistory := ConversationHistory.mkDefault "You are a helpful voice assistant."
    stopRequested := false
    lastActivity := 0
    speakingStarted := 0 }

/-- Claim C10, as stated, is false in its "state unchanged" clause: a
non-TTS frame reaching a session that has been Speaking for more than 30
seconds is still discarded (no buffering, no VAD, no turn), but the handler
first auto-resets the session to Idle and emits a `state{idle}` frame. -/
theorem C10_counterexample :
    timedOutSpeakingSession.state = SessionState.speaking ∧
    (processAudioIngress false false false false [7] 31 timedOutSpeakingSession).session.state =
      SessionState.idle ∧
    (processAudioIngress false false false false [7] 31 timedOutSpeakingSession).frames =
      [Frame.stateF "idle"] := by
  have hto : timedOutSpeakingSession.checkSpeakingTimeout 31 = true := by
    unfold Session.checkSpeakingTimeout
    rw [if_pos ⟨rfl, by norm_num [timedOutSpeakingSession]⟩]
  have hrw : processAudioIngress false false false false [7] 31 timedOutSpeakingSession =
      ingressStop (timedOutSpeakingSession.setState SessionState.idle 31)
        [Frame.stateF "idle"] false := by
    unfold processAudioIngress
    rw [hto]
    rfl
  rw [hrw]
  exact ⟨rfl, rfl, rfl⟩

/-- Claim C10 as amended: an incoming audio chunk whose TTS-playing flag is
clear, arriving while the session is not Listening (in particular while
Processing), is discarded before any processing — it is not appended to the
audio buffer, the VAD is neither run nor reset, no turn starts, and the
conversation is unchanged; the session itself is unchanged too, except that
a session stuck in Speaking past the 30-second timeout is first reset to
Idle with a `state{idle}` frame. -/
theorem C10_discard_when_not_listening (vadIsSpeaking vadSpeechEnded lockHeld : Bool)
    (audio : List Nat) (now : ℚ) (s : Session)
    (hns : s.state ≠ SessionState.listening) :
    (processAudioIngress vadIsSpeaking vadSpeechEnded lockHeld false audio now s).vadRan = false ∧
    (processAudioIngress vadIsSpeaking vadSpeechEnded lockHeld false audio now s).vadWasReset =
      false ∧
    (processAudioIngress vadIsSpeaking vadSpeechEnded lockHeld false audio now s).turnStarted =
      false ∧
    (processAudioIngress vadIsSpeaking vadSpeechEnded lockHeld false audio now
      s).session.audioBuffer = s.audioBuffer ∧
    (processAudioIngress vadIsSpeaking vadSpeechEnded lockHeld false audio now
      s).session.conversationHistory = s.conversationHistory ∧
    (if s.checkSpeakingTimeout now = true then
      (processAudioIngress vadIsSpeaking vadSpeechEnded lockHeld false audio now s).session =
        s.setState SessionState.idle now ∧
      (processAudioIngress vadIsSpeaking vadSpeechEnded lockHeld false audio now s).frames =
        [Frame.stateF "idle"]
    else
      (processAudioIngress vadIsSpeaking vadSpeechEnded lockHeld false audio now s).session = s ∧
      (processAudioIngress vadIsSpeaking vadSpeechEnded lockHeld false audio now s).frames =
        []) := by
  by_cases ht : s.checkSpeakingTimeout now = true
  · have hrw : processAudioIngress vadIsSpeaking vadSpeechEnded lockHeld false audio now s =
        ingressStop (s.setState SessionState.idle now) [Frame.stateF "idle"] false := by
      unfold processAudioIngress
      rw [ht]
      rfl
    rw [hrw]
    refine ⟨rfl, rfl, rfl, ?_, ?_, ?_⟩
    · exact (setState_fields s SessionState.idle now).2.2.1
    · exact (setState_fields s SessionState.idle now).2.2.2
    · rw [if_pos ht]
      exact ⟨rfl, rfl⟩
  · rw [Bool.not_eq_true] at ht
    have hrw : processAudioIngress vadIsSpeaking vadSpeechEnded lockHeld false audio now s =
        ingressStop s [] false := by
      unfold processAudioIngress
      rw [ht]
      show (if s.state = SessionState.processing then ingressStop s [] false
            else if s.state ≠ SessionState.listening then ingressStop s [] false
            else _) = ingressStop s [] false
      by_cases hp : s.state = SessionState.processing
      · rw [if_pos hp]
      · rw [if_neg hp, if_pos hns]
    rw [hrw]
    refine ⟨rfl, rfl, rfl, rfl, rfl, ?_⟩
    rw [if_neg (by rw [ht]; exact Bool.false_ne_true)]
    exact ⟨rfl, rfl⟩

/-- A session in the middle of a pipeline run. -/
def processingSession : Session :=
  { state := SessionState.processing
    audioBuffer := [9, 9]
    conversationHistory := ConversationHistory.mkDefault "You are a helpful voice assistant."
    stopRequested := false
    lastActivity := 5
    speakingStarted := 0 }

/-- Witness for `C10_discard_when_not_listening`: a chunk arriving during
Processing runs no VAD. -/
theorem C10_witness :
    (processAudioIngress false false false false [7] 6 processingSession).vadRan = false := by
  exact (C10_discard_when_not_listening false false false [7] 6 processingSession (by decide)).1

end Felix
